import Mathlib

/-!
# PowerPoint status query (powerpoint_com.cpp)

A shallow embedding of `GetVideoInfoFromPowerPoint` and `GetPowerPointStatus`.

The host application's COM object tree is a value of type `Host`, read but never
changed by a call.  Every property read is a `Read`: it either raises an
exception or returns a value.  An interface pointer that is returned may be
null; `p->X` on a null smart pointer raises `_com_error(E_POINTER)`, which is
what `deref` does.  `long` values are integers.  A `double` value is the
rational number it denotes, and every `double` operation is the exact operation
followed by IEEE-754 rounding to nearest (`roundDouble`).  A `Napi::Object` is a
record of optional fields, `none` meaning that the key was never set.
-/

namespace PowerPointCom

/-! ## Exceptions, reads, pointers -/

/-- C++ exceptions as the two handlers of the source tell them apart:
`catch (_com_error& e)` (carrying `e.ErrorMessage()`) and `catch (...)`. -/
inductive Exn where
  | com (msg : String)
  | other
deriving DecidableEq, Repr

/-- The outcome of one property read on the host object model. -/
abbrev Read (α : Type) := Except Exn α

/-- A COM smart pointer: `none` is the null pointer. -/
abbrev Ptr (α : Type) := Option α

/-- The arrow `p->` of `_com_ptr_t`: a null pointer raises `_com_error(E_POINTER)`. -/
def deref {α : Type} : Ptr α → Read α
  | none => .error (.com "Invalid pointer")
  | some a => .ok a

/-- A collection count or a 1-based position as the host reports it: a `long`
(32 bits on Windows) that is never negative. -/
abbrev LongNat := Fin 2147483648

/-- Two's-complement wrap-around into the range of a 32-bit `long`. -/
def wrapLong (x : Int) : Int :=
  (x + 2147483648) % 4294967296 - 2147483648

/-- Subtraction of two `long` values. -/
def longSub (a b : Int) : Int :=
  wrapLong (a - b)

/-- An automation collection: its `Count` property and what `Item(i)` yields
for `i = 1, 2, ...`. -/
structure Coll (α : Type) where
  Count : Read LongNat
  items : List (Read (Ptr α))

/-- The call `coll->Item(i)` with a 1-based index; an index outside the
collection raises. -/
def Coll.Item {α : Type} (c : Coll α) (i : Int) : Read (Ptr α) :=
  if i < 1 then .error (.com "Integer out of range")
  else match c.items[i.toNat - 1]? with
    | some r => r
    | none => .error (.com "Integer out of range")

/-- The result of `pptApp.CreateInstance(...)`: `failed` is `FAILED(hr)`,
`ok p` a success code with the pointer `p`, which can still be null. -/
inductive HResult (α : Type) where
  | failed
  | ok (p : Ptr α)

/-! ## The host object model (the properties the source reads) -/

structure MediaFormat where
  IsPlaying : Read Bool
  Length : Read Int
  CurrentPosition : Read Int
  Volume : Read Int
  Muted : Read Bool
  Name : Read (Option String)

structure LinkFormat where
  SourceFullName : Read (Option String)

structure Shape where
  Type_ : Read Int
  MediaFormat : Read (Ptr PowerPointCom.MediaFormat)
  LinkFormat : Read (Ptr PowerPointCom.LinkFormat)

structure Slide where
  SlideIndex : Read LongNat
  Shapes : Read (Ptr (Coll Shape))

structure SlideShowView where
  Slide : Read (Ptr PowerPointCom.Slide)

structure SlideShowWindow where
  View : Read (Ptr SlideShowView)

structure Selection where
  SlideRange : Read (Ptr (Coll Slide))

structure Window where
  Selection : Read (Ptr PowerPointCom.Selection)

structure Slides where
  Count : Read LongNat

structure Presentation where
  Slides : Read (Ptr PowerPointCom.Slides)
  Windows : Read (Ptr (Coll Window))

structure Presentations where
  Count : Read LongNat

structure Application where
  Presentations : Read (Ptr PowerPointCom.Presentations)
  ActivePresentation : Read (Ptr Presentation)
  SlideShowWindows : Read (Ptr (Coll SlideShowWindow))

structure Host where
  CreateInstance : HResult Application

/-! ## IEEE-754 binary64 arithmetic

A `long` has 32 bits, so its conversion to `double` is exact, and no quotient
or difference formed in the source comes near the overflow threshold:
infinities and NaN do not occur and are not represented. -/

/-- The power `2 ^ e` for an integer exponent `e`. -/
def pow2 (e : Int) : ℚ :=
  if 0 ≤ e then ((2 ^ e.toNat : Nat) : ℚ) else 1 / ((2 ^ (-e).toNat : Nat) : ℚ)

/-- The length of the binary numeral of `n`, less one: `log2Fuel n n` is
`⌊log₂ n⌋` for `n ≥ 1`.  The first argument bounds the recursion. -/
def log2Fuel : Nat → Nat → Nat
  | 0, _ => 0
  | fuel + 1, n => if n < 2 then 0 else log2Fuel fuel (n / 2) + 1

/-- The binade of `q ≠ 0`: the integer `e` with `2 ^ e ≤ |q| < 2 ^ (e + 1)`.
The difference of the bit lengths of numerator and denominator is `e` or
`e + 1`. -/
def binade (q : ℚ) : Int :=
  let e : Int := (log2Fuel q.num.natAbs q.num.natAbs : Int) - (log2Fuel q.den q.den : Int)
  if |q| < pow2 e then e - 1 else e

/-- The multiple of `2 ^ e` nearest to `q`; of two equally near ones, the even
multiple. -/
def roundToGrid (e : Int) (q : ℚ) : ℚ :=
  let s := q / pow2 e
  let f := ⌊s⌋
  let r := s - f
  let n : Int :=
    if r < 1 / 2 then f else if 1 / 2 < r then f + 1 else if f % 2 = 0 then f else f + 1
  n * pow2 e

/-- Rounding to binary64, to nearest, ties to even: 53 significant bits, and
the spacing `2 ^ (-1074)` below the smallest normal binade `-1022`. -/
def roundDouble (q : ℚ) : ℚ :=
  if q = 0 then 0 else roundToGrid (max (binade q) (-1022) - 52) q

/-- The `double` quotient `a / b`. -/
def fdiv (a b : ℚ) : ℚ :=
  roundDouble (a / b)

/-- The `double` difference `a - b`. -/
def fsub (a b : ℚ) : ℚ :=
  roundDouble (a - b)

/-! ## GetVideoInfoFromPowerPoint -/

structure VideoInfo where
  hasVideo : Bool
  isPlaying : Bool
  duration : ℚ
  currentTime : ℚ
  remainingTime : ℚ
  volume : ℚ
  muted : Bool
  fileName : String
  sourceUrl : String
deriving DecidableEq

/-- Line 39: `VideoInfo info = {false, false, 0.0, 0.0, 0.0, 0.0, false, "", ""}`. -/
def initialInfo : VideoInfo :=
  ⟨false, false, 0, 0, 0, 0, false, "", ""⟩

/-- Lines 129-158, the body of `if (mediaFormat)`.  The result is `info` as it
stands when the block ends, and the exception that ended it early, if any:
assignments made before a failing read are kept. -/
def readMediaFormat (mediaFormat : MediaFormat) (info : VideoInfo) : VideoInfo × Option Exn :=
  match mediaFormat.IsPlaying with
  | .error e => (info, some e)
  | .ok isPlaying =>
  let info := { info with isPlaying := isPlaying }
  match mediaFormat.Length with
  | .error e => (info, some e)
  | .ok durationMs =>
  let info := { info with duration := fdiv (durationMs : ℚ) 1000 }
  match mediaFormat.CurrentPosition with
  | .error e => (info, some e)
  | .ok currentTimeMs =>
  let info := { info with currentTime := fdiv (currentTimeMs : ℚ) 1000 }
  let info := { info with remainingTime := fsub info.duration info.currentTime }
  let info := if info.remainingTime < 0 then { info with remainingTime := 0 } else info
  match mediaFormat.Volume with
  | .error e => (info, some e)
  | .ok volumePercent =>
  let info := { info with volume := fdiv (volumePercent : ℚ) 100 }
  match mediaFormat.Muted with
  | .error e => (info, some e)
  | .ok muted =>
  let info := { info with muted := muted }
  match mediaFormat.Name with
  | .error e => (info, some e)
  | .ok none => (info, none)
  | .ok (some mediaName) =>
    if mediaName.length > 0 then ({ info with fileName := mediaName }, none) else (info, none)

/-- Lines 162-172: the inner `try` around `shape->LinkFormat`; its `catch (...)`
swallows every failure. -/
def readLinkFormat (shape : Shape) (info : VideoInfo) : VideoInfo :=
  match shape.LinkFormat with
  | .ok (some linkFormat) =>
    match linkFormat.SourceFullName with
    | .ok (some sourceFullName) =>
      if sourceFullName.length > 0 then { info with sourceUrl := sourceFullName } else info
    | _ => info
  | _ => info

/-- How one pass through the loop body ends: `next` is falling through or
`continue`, `stop` is `break`. -/
inductive Flow where
  | next
  | stop
deriving DecidableEq, Repr

/-- Lines 115-180: the `try` of the loop body for a fetched `shape`, with its
`catch (...) continue`. -/
def processShape (shape : Ptr Shape) (info : VideoInfo) : VideoInfo × Flow :=
  match shape with
  | none => (info, .next)
  | some sh =>
  match sh.Type_ with
  | .error _ => (info, .next)
  | .ok shapeType =>
  if shapeType = 16 then
    let info := { info with hasVideo := true }
    match sh.MediaFormat with
    | .error _ => (info, .next)
    | .ok none => (readLinkFormat sh info, .stop)
    | .ok (some mediaFormat) =>
      match readMediaFormat mediaFormat info with
      | (info, some _) => (info, .next)
      | (info, none) => (readLinkFormat sh info, .stop)
  else (info, .next)

/-- Lines 110-181: `for (long i = 1; i <= shapeCount; i++)`, entered at index
`i` with `n` passes left.  `shapes->Item(i)` stands outside the inner `try`,
so its exception leaves the loop. -/
def scanFrom (shapes : Coll Shape) (i : Int) : Nat → VideoInfo → VideoInfo × Option Exn
  | 0, info => (info, none)
  | n + 1, info =>
    match shapes.Item i with
    | .error e => (info, some e)
    | .ok shape =>
      match processShape shape info with
      | (info, .stop) => (info, none)
      | (info, .next) => scanFrom shapes (i + 1) n info

/-- Lines 71-82: the slide of the first slideshow window; the `catch (...)`
leaves `currentSlide` null. -/
def slideShowSlide (pptApp : Application) : Ptr Slide :=
  let body : Read (Ptr Slide) := do
    let slideShowWindows ← pptApp.SlideShowWindows
    let count ← (← deref slideShowWindows).Count
    if count > 0 then
      let slideShowWindow ← (← deref slideShowWindows).Item 1
      let view ← (← deref slideShowWindow).View
      (← deref view).Slide
    else pure none
  match body with
  | .ok currentSlide => currentSlide
  | .error _ => none

/-- Lines 86-98: the first slide of the selection of the first window of the
active presentation; the `catch (...)` leaves `currentSlide` null. -/
def selectionSlide (activePres : Presentation) : Ptr Slide :=
  let body : Read (Ptr Slide) := do
    let windows ← activePres.Windows
    let count ← (← deref windows).Count
    if count > 0 then
      let window ← (← deref windows).Item 1
      let selection ← (← deref window).Selection
      let slideRange ← (← deref selection).SlideRange
      let rangeCount ← (← deref slideRange).Count
      if rangeCount > 0 then (← deref slideRange).Item 1 else pure none
    else pure none
  match body with
  | .ok currentSlide => currentSlide
  | .error _ => none

/-- Lines 67-99: `currentSlide` as `GetVideoInfoFromPowerPoint` resolves it. -/
def videoSlide (pptApp : Application) (activePres : Presentation) : Ptr Slide :=
  match slideShowSlide pptApp with
  | some currentSlide => some currentSlide
  | none => selectionSlide activePres

/-- Lines 55-183, the outer `try` once the application is attached. -/
def videoBody (pptApp : Application) (info : VideoInfo) : VideoInfo × Option Exn :=
  match pptApp.Presentations >>= deref >>= (·.Count) with
  | .error e => (info, some e)
  | .ok count =>
  if count = 0 then (info, none) else
  match pptApp.ActivePresentation with
  | .error e => (info, some e)
  | .ok none => (info, none)
  | .ok (some activePres) =>
  match videoSlide pptApp activePres with
  | none => (info, none)
  | some currentSlide =>
  match currentSlide.Shapes >>= deref with
  | .error e => (info, some e)
  | .ok shapes =>
  match shapes.Count with
  | .error e => (info, some e)
  | .ok shapeCount => scanFrom shapes 1 shapeCount.val info

/-- Lines 38-196.  Both outer handlers and the normal exit return `info` as it
stands. -/
def GetVideoInfoFromPowerPoint (host : Host) : VideoInfo :=
  let info := initialInfo
  match host.CreateInstance with
  | .failed => info
  | .ok none => info
  | .ok (some pptApp) => (videoBody pptApp info).1

/-! ## GetPowerPointStatus -/

/-- The `videoObj` of lines 264-279: `none` is a key that was not set. -/
structure VideoObject where
  hasVideo : Option Bool := none
  isPlaying : Option Bool := none
  duration : Option ℚ := none
  currentTime : Option ℚ := none
  remainingTime : Option ℚ := none
  volume : Option ℚ := none
  muted : Option Bool := none
  fileName : Option String := none
  sourceUrl : Option String := none
deriving DecidableEq

/-- The `result` object of `GetPowerPointStatus`: `none` is a key that was not
set. -/
structure StatusObject where
  isAvailable : Option Bool := none
  error : Option String := none
  slideCount : Option Int := none
  currentSlide : Option Int := none
  isInSlideShow : Option Bool := none
  slidesRemaining : Option Int := none
  video : Option VideoObject := none
deriving DecidableEq

/-- Lines 263-280: the `video` object built from `videoInfo`. -/
def videoObject (videoInfo : VideoInfo) : VideoObject :=
  if videoInfo.hasVideo then
    { hasVideo := some true
      isPlaying := some videoInfo.isPlaying
      duration := some videoInfo.duration
      currentTime := some videoInfo.currentTime
      remainingTime := some videoInfo.remainingTime
      volume := some videoInfo.volume
      muted := some videoInfo.muted
      fileName := some videoInfo.fileName
      sourceUrl := some videoInfo.sourceUrl }
  else
    { hasVideo := some false }

/-- Lines 237-251, the body of the inner `try`: the values `currentSlide` and
`isInSlideShow` have when it completes. -/
def currentSlideBody (pptApp : Application) (activePres : Presentation) : Read (Int × Bool) := do
  let slideShowWindows ← pptApp.SlideShowWindows
  let count ← (← deref slideShowWindows).Count
  if count > 0 then
    let slideShowWindow ← (← deref slideShowWindows).Item 1
    let view ← (← deref slideShowWindow).View
    let slide ← (← deref view).Slide
    let slideIndex ← (← deref slide).SlideIndex
    pure ((slideIndex.val : Int), true)
  else
    let windows ← activePres.Windows
    let window ← (← deref windows).Item 1
    let selection ← (← deref window).Selection
    let slideRange ← (← deref selection).SlideRange
    let rangeCount ← (← deref slideRange).Count
    if rangeCount > 0 then
      let first ← (← deref slideRange).Item 1
      let slideIndex ← (← deref first).SlideIndex
      pure ((slideIndex.val : Int), false)
    else pure (1, false)

/-- Lines 233-254: `currentSlide` and `isInSlideShow` after the inner `try`;
its `catch (...)` keeps the initial `1` and `false`. -/
def resolveCurrentSlide (pptApp : Application) (activePres : Presentation) : Int × Bool :=
  match currentSlideBody pptApp activePres with
  | .ok r => r
  | .error _ => (1, false)

/-- The read `activePres->Slides->Count` of lines 230 and 258. -/
def slidesCount (activePres : Presentation) : Read LongNat := do
  let slides ← activePres.Slides
  (← deref slides).Count

/-- Lines 205-280, the body of the outer `try`: `result` as it stands when the
body ends, and the exception that ended it, if any. -/
def statusBody (host : Host) (result : StatusObject) : StatusObject × Option Exn :=
  let notOpen : StatusObject :=
    { result with isAvailable := some false, error := some "PowerPoint não está aberto" }
  match host.CreateInstance with
  | .failed => (notOpen, none)
  | .ok none => (notOpen, none)
  | .ok (some pptApp) =>
  match pptApp.Presentations >>= deref >>= (·.Count) with
  | .error e => (result, some e)
  | .ok count =>
  if count = 0 then
    ({ result with isAvailable := some false, error := some "Nenhuma apresentação aberta" }, none)
  else
  match pptApp.ActivePresentation with
  | .error e => (result, some e)
  | .ok none =>
    ({ result with isAvailable := some false, error := some "Nenhuma apresentação ativa" }, none)
  | .ok (some activePres) =>
  let result := { result with isAvailable := some true }
  match slidesCount activePres with
  | .error e => (result, some e)
  | .ok slideCount =>
  let result := { result with slideCount := some (slideCount.val : Int) }
  let (currentSlide, isInSlideShow) := resolveCurrentSlide pptApp activePres
  let result := { result with
    currentSlide := some currentSlide, isInSlideShow := some isInSlideShow }
  match slidesCount activePres with
  | .error e => (result, some e)
  | .ok slideCount =>
  let result := { result with
    slidesRemaining := some (longSub (slideCount.val : Int) currentSlide) }
  let videoInfo := GetVideoInfoFromPowerPoint host
  ({ result with video := some (videoObject videoInfo) }, none)

/-- Lines 199-292: the outer handlers overwrite `isAvailable` and set `error`
on whatever `result` holds by then. -/
def GetPowerPointStatus (host : Host) : StatusObject :=
  match statusBody host {} with
  | (result, none) => result
  | (result, some (.com msg)) => { result with isAvailable := some false, error := some msg }
  | (result, some .other) =>
    { result with isAvailable := some false, error := some "Erro desconhecido" }

/-! ## Predicates on host states -/

/-- All six property reads of lines 129-155 succeed: the media format is read
to the end. -/
def MediaFormat.readable (mediaFormat : MediaFormat) : Prop :=
  (∃ a, mediaFormat.IsPlaying = .ok a) ∧ (∃ a, mediaFormat.Length = .ok a) ∧
    (∃ a, mediaFormat.CurrentPosition = .ok a) ∧ (∃ a, mediaFormat.Volume = .ok a) ∧
    (∃ a, mediaFormat.Muted = .ok a) ∧ (∃ a, mediaFormat.Name = .ok a)

/-- An entry of the shape collection after which the loop goes on to the next
index: the shape is fetched, and it is null, or its type is not read as 16, or
it is a media shape on which a read raises (`MediaFormat` itself or one of its
properties). -/
def passedOver : Read (Ptr Shape) → Prop
  | .error _ => False
  | .ok none => True
  | .ok (some shape) =>
    shape.Type_ ≠ .ok 16 ∨ (∃ e, shape.MediaFormat = .error e) ∨
      ∃ mediaFormat, shape.MediaFormat = .ok (some mediaFormat) ∧ ¬ mediaFormat.readable

/-- The collection `shapes` is that of the slide which `GetVideoInfoFromPowerPoint`
resolves as current in `host`. -/
def scannedShapes (host : Host) (shapes : Coll Shape) : Prop :=
  ∃ pptApp activePres slide,
    host.CreateInstance = .ok (some pptApp) ∧
    pptApp.ActivePresentation = .ok (some activePres) ∧
    videoSlide pptApp activePres = some slide ∧ slide.Shapes = .ok (some shapes)

/-- The host reports `v` as the volume of the media format of a shape of the
collection. -/
def reportsVolume (shapes : Coll Shape) (v : Int) : Prop :=
  ∃ (shape : Shape) (mediaFormat : MediaFormat),
    (.ok (some shape) : Read (Ptr Shape)) ∈ shapes.items ∧
    shape.MediaFormat = .ok (some mediaFormat) ∧ mediaFormat.Volume = .ok v

/-- Every volume that the host reports for a shape of the collection lies on
the 0-100 scale. -/
def volumesWithin (shapes : Coll Shape) : Prop :=
  ∀ v, reportsVolume shapes v → 0 ≤ v ∧ v ≤ 100

/-! ## Concrete host states -/

/-- No PowerPoint instance can be attached: `CreateInstance` fails. -/
def hostNotRunning : Host :=
  { CreateInstance := .failed }

/-- A media format all of whose properties can be read. -/
def mediaFormatOf (isPlaying : Bool) (length position volume : Int) (muted : Bool)
    (name : String) : MediaFormat :=
  { IsPlaying := .ok isPlaying, Length := .ok length, CurrentPosition := .ok position,
    Volume := .ok volume, Muted := .ok muted, Name := .ok (some name) }

/-- An embedded media shape (type 16) with the given media format and no link. -/
def mediaShape (mediaFormat : MediaFormat) : Shape :=
  { Type_ := .ok 16, MediaFormat := .ok (some mediaFormat), LinkFormat := .ok none }

/-- A text box (type 17): reading its media format raises. -/
def textBox : Shape :=
  { Type_ := .ok 17, MediaFormat := .error (.com "Member not found"),
    LinkFormat := .error (.com "Member not found") }

/-- A slide with the given index whose shape collection is `shapes`. -/
def slideOf (index : LongNat) (shapes : List (Read (Ptr Shape))) : Slide :=
  { SlideIndex := .ok index, Shapes := .ok (some ⟨.ok (Fin.ofNat shapes.length), shapes⟩) }

/-- A slideshow window showing `slide`. -/
def showing (slide : Slide) : SlideShowWindow :=
  { View := .ok (some ⟨.ok (some slide)⟩) }

/-- A running application with one open, active presentation of `slideCount`
slides, the given slideshow windows, and one editing window whose selection is
`selected`. -/
def hostOf (slideCount : LongNat) (slideShowWindows : List (Read (Ptr SlideShowWindow)))
    (selected : List (Read (Ptr Slide))) : Host :=
  { CreateInstance := .ok (some
      { Presentations := .ok (some ⟨.ok 1⟩)
        ActivePresentation := .ok (some
          { Slides := .ok (some ⟨.ok slideCount⟩)
            Windows := .ok (some ⟨.ok 1,
              [.ok (some ⟨.ok (some ⟨.ok (some ⟨.ok (Fin.ofNat selected.length), selected⟩)⟩)⟩)]⟩) })
        SlideShowWindows :=
          .ok (some ⟨.ok (Fin.ofNat slideShowWindows.length), slideShowWindows⟩) }) }

/-- Slide 3 of 10 selected in the editor, no slideshow, no media shape. -/
def hostEditing : Host :=
  hostOf 10 [] [.ok (some (slideOf 3 [.ok (some textBox)]))]

/-- A slideshow on slide 2, which holds a media shape of 120000 ms at position
30000 ms, volume 50, not muted; slide 5 is selected in the editor. -/
def hostSlideShow : Host :=
  hostOf 10
    [.ok (some (showing (slideOf 2
      [.ok (some textBox), .ok (some (mediaShape (mediaFormatOf true 120000 30000 50 false "clip.mp4")))])))]
    [.ok (some (slideOf 5 []))]

/-- The slideshow of `hostSlideShow` with the media shape at volume 150. -/
def hostLoud : Host :=
  hostOf 10
    [.ok (some (showing (slideOf 2
      [.ok (some (mediaShape (mediaFormatOf true 120000 30000 150 false "clip.mp4")))])))]
    [.ok (some (slideOf 5 []))]

/-- A slideshow window exists but its `View` cannot be read; slide 3, which
holds a media shape, is selected in the editing window. -/
def hostViewFails : Host :=
  hostOf 10 [.ok (some ⟨.error (.com "Unspecified error")⟩)]
    [.ok (some (slideOf 3
      [.ok (some (mediaShape (mediaFormatOf false 60000 0 80 false "intro.mp4")))]))]

/-- A media shape (type 16) whose media format reports `IsPlaying = true` and
then raises on `Length` (and on every later property). -/
def stalledMedia : Shape :=
  { Type_ := .ok 16
    MediaFormat := .ok (some
      { IsPlaying := .ok true
        Length := .error (.com "Unspecified error")
        CurrentPosition := .error (.com "Unspecified error")
        Volume := .error (.com "Unspecified error")
        Muted := .error (.com "Unspecified error")
        Name := .error (.com "Unspecified error") })
    LinkFormat := .ok none }

/-- Slide 1 selected in the editor, holding `stalledMedia` followed by `second`. -/
def hostTwoShapes (second : Shape) : Host :=
  hostOf 10 [] [.ok (some (slideOf 1 [.ok (some stalledMedia), .ok (some second)]))]

/-- Slide 1 selected in the editor; fetching its first shape raises, its second
shape is a readable media shape. -/
def hostUnfetchable : Host :=
  hostOf 10 []
    [.ok (some (slideOf 1
      [.error (.com "Unspecified error"),
       .ok (some (mediaShape (mediaFormatOf false 60000 0 80 false "intro.mp4")))]))]

/-- The host `hostUnfetchable` with the unreadable shape removed. -/
def hostFetchable : Host :=
  hostOf 10 []
    [.ok (some (slideOf 1
      [.ok (some (mediaShape (mediaFormatOf false 60000 0 80 false "intro.mp4")))]))]

/-- Slide 1 selected in the editor; the type of its first shape cannot be read,
its second shape is a readable media shape. -/
def hostUntyped : Host :=
  hostOf 10 []
    [.ok (some (slideOf 1
      [.ok (some { textBox with Type_ := .error (.com "Unspecified error") }),
       .ok (some (mediaShape (mediaFormatOf false 60000 0 80 false "intro.mp4")))]))]

/-- Slide 1 selected in the editor, holding one media shape of 300 ms at
position 100 ms. -/
def hostTenths : Host :=
  hostOf 10 []
    [.ok (some (slideOf 1
      [.ok (some (mediaShape (mediaFormatOf false 300 100 50 false "clip.mp4")))]))]

/-- A media shape read with length 10000 ms and position 2000 ms, whose
`Volume` read raises. -/
def mediaWithoutVolume : Shape :=
  { Type_ := .ok 16
    MediaFormat := .ok (some
      { IsPlaying := .ok true
        Length := .ok 10000
        CurrentPosition := .ok 2000
        Volume := .error (.com "Unspecified error")
        Muted := .ok false
        Name := .ok (some "first.mp4") })
    LinkFormat := .ok none }

/-- A media shape read with length 1000 ms, whose `CurrentPosition` read
raises. -/
def mediaWithoutPosition : Shape :=
  { Type_ := .ok 16
    MediaFormat := .ok (some
      { IsPlaying := .ok false
        Length := .ok 1000
        CurrentPosition := .error (.com "Unspecified error")
        Volume := .ok 50
        Muted := .ok false
        Name := .ok (some "second.mp4") })
    LinkFormat := .ok none }

/-- Slide 1 selected in the editor, holding `mediaWithoutVolume` followed by
`mediaWithoutPosition`. -/
def hostOverwritten : Host :=
  hostOf 10 []
    [.ok (some (slideOf 1 [.ok (some mediaWithoutVolume), .ok (some mediaWithoutPosition)]))]

end PowerPointCom

namespace PowerPointCom

/-! ## Arithmetic on `long` -/

theorem wrapLong_of_range (x : Int) (h1 : -2147483648 ≤ x) (h2 : x < 2147483648) :
    wrapLong x = x := by
  unfold wrapLong
  omega

theorem currentSlideBody_range (pptApp : Application) (activePres : Presentation)
    (r : Int × Bool) (h : currentSlideBody pptApp activePres = .ok r) :
    0 ≤ r.1 ∧ r.1 < 2147483648 := by
  simp only [currentSlideBody, bind, Except.bind, pure, Except.pure] at h
  repeat' split at h
  all_goals cases h
  all_goals first
    | exact ⟨by decide, by decide⟩
    | (rename_i v _; exact ⟨Int.natCast_nonneg _, by have := v.isLt; simp only []; omega⟩)

theorem resolveCurrentSlide_range (pptApp : Application) (activePres : Presentation) :
    0 ≤ (resolveCurrentSlide pptApp activePres).1 ∧
      (resolveCurrentSlide pptApp activePres).1 < 2147483648 := by
  unfold resolveCurrentSlide
  split
  · next r h => exact currentSlideBody_range pptApp activePres r h
  · exact ⟨by decide, by decide⟩

theorem longSub_count_slide (c : LongNat) (pptApp : Application) (activePres : Presentation) :
    longSub (c.val : Int) (resolveCurrentSlide pptApp activePres).1 =
      (c.val : Int) - (resolveCurrentSlide pptApp activePres).1 := by
  have hr := resolveCurrentSlide_range pptApp activePres
  have hc : (c.val : Int) < 2147483648 := by exact_mod_cast c.isLt
  have hc0 : (0 : Int) ≤ (c.val : Int) := Int.natCast_nonneg _
  unfold longSub
  apply wrapLong_of_range <;> omega

/-! ## GetPowerPointStatus: availability -/

/-- What `GetPowerPointStatus` returns once the application, an active
presentation and its slide count have been read. -/
theorem status_of_available (host : Host) (pptApp : Application) (count : LongNat)
    (activePres : Presentation) (slideCount : LongNat)
    (hApp : host.CreateInstance = .ok (some pptApp))
    (hCount : (pptApp.Presentations >>= deref >>= (·.Count)) = .ok count)
    (hne : count ≠ 0)
    (hPres : pptApp.ActivePresentation = .ok (some activePres))
    (hSlides : slidesCount activePres = .ok slideCount) :
    GetPowerPointStatus host =
      { isAvailable := some true
        slideCount := some (slideCount.val : Int)
        currentSlide := some (resolveCurrentSlide pptApp activePres).1
        isInSlideShow := some (resolveCurrentSlide pptApp activePres).2
        slidesRemaining :=
          some (longSub (slideCount.val : Int) (resolveCurrentSlide pptApp activePres).1)
        video := some (videoObject (GetVideoInfoFromPowerPoint host)) } := by
  simp [GetPowerPointStatus, statusBody, hApp, hCount, hne, hPres, hSlides]

/-- The cases in which `GetPowerPointStatus` reports `isAvailable = true`. -/
theorem available_inv (host : Host)
    (h : (GetPowerPointStatus host).isAvailable = some true) :
    ∃ pptApp count activePres slideCount,
      host.CreateInstance = .ok (some pptApp) ∧
      (pptApp.Presentations >>= deref >>= (·.Count)) = .ok count ∧ count ≠ 0 ∧
      pptApp.ActivePresentation = .ok (some activePres) ∧
      slidesCount activePres = .ok slideCount := by
  unfold GetPowerPointStatus statusBody at h
  cases hApp : host.CreateInstance with
  | failed => simp [hApp] at h
  | ok p =>
    cases p with
    | none => simp [hApp] at h
    | some pptApp =>
      cases hCount : (pptApp.Presentations >>= deref >>= (·.Count)) with
      | error e => cases e <;> simp [hApp, hCount] at h
      | ok count =>
        by_cases hne : count = 0
        · simp [hApp, hCount, hne] at h
        · cases hPres : pptApp.ActivePresentation with
          | error e => cases e <;> simp [hApp, hCount, hne, hPres] at h
          | ok q =>
            cases q with
            | none => simp [hApp, hCount, hne, hPres] at h
            | some activePres =>
              cases hSlides : slidesCount activePres with
              | error e => cases e <;> simp [hApp, hCount, hne, hPres, hSlides] at h
              | ok slideCount =>
                exact ⟨pptApp, count, activePres, slideCount, rfl, hCount, hne, hPres, hSlides⟩

/-! ## GetPowerPointStatus: the claims -/

/-- C1, as stated, fails: with `CreateInstance` failing, the record returned by
`GetPowerPointStatus` has `isAvailable = false` but no `video` key at all, so
it holds no video object whose `hasVideo` is false. -/
theorem notRunning_has_no_video :
    hostNotRunning.CreateInstance = .failed ∧
      (GetPowerPointStatus hostNotRunning).isAvailable = some false ∧
      (GetPowerPointStatus hostNotRunning).video = none :=
  ⟨rfl, by decide, by decide⟩

/-- C1, amended: for every host state in which no application instance can be
attached (`CreateInstance` fails or yields a null pointer), the record returned
by `GetPowerPointStatus` holds exactly two keys, `isAvailable = false` and
`error = "PowerPoint não está aberto"`; no `video` key is set. -/
theorem status_of_unattached (host : Host)
    (h : host.CreateInstance = .failed ∨ host.CreateInstance = .ok none) :
    GetPowerPointStatus host =
      { isAvailable := some false, error := some "PowerPoint não está aberto" } := by
  rcases h with h | h <;> simp [GetPowerPointStatus, statusBody, h]

/-- The amended C1 at `hostNotRunning`, where `CreateInstance` fails. -/
theorem status_of_unattached_witness :
    GetPowerPointStatus hostNotRunning =
      { isAvailable := some false, error := some "PowerPoint não está aberto" } :=
  status_of_unattached hostNotRunning (Or.inl rfl)

/-- C2: for every host state, whichever property reads fail, `GetPowerPointStatus`
(a total function: every exception of its body is turned into a record by the
outer handlers) returns a record in which `isAvailable` is set, and in which
the `error` key is present if and only if `isAvailable` is false. -/
theorem error_iff_unavailable (host : Host) :
    (GetPowerPointStatus host).isAvailable ≠ none ∧
      ((GetPowerPointStatus host).error ≠ none ↔
        (GetPowerPointStatus host).isAvailable = some false) := by
  unfold GetPowerPointStatus statusBody
  cases hApp : host.CreateInstance with
  | failed => simp
  | ok p =>
    cases p with
    | none => simp
    | some pptApp =>
      cases hCount : (pptApp.Presentations >>= deref >>= (·.Count)) with
      | error e => cases e <;> simp [hCount]
      | ok count =>
        by_cases hne : count = 0
        · simp [hCount, hne]
        · cases hPres : pptApp.ActivePresentation with
          | error e => cases e <;> simp [hCount, hne, hPres]
          | ok q =>
            cases q with
            | none => simp [hCount, hne, hPres]
            | some activePres =>
              cases hSlides : slidesCount activePres with
              | error e => cases e <;> simp [hCount, hne, hPres, hSlides]
              | ok slideCount => simp [hCount, hne, hPres, hSlides]

/-- C3: for every host state for which `GetPowerPointStatus` returns
`isAvailable = true`, the record contains `slideCount`, `currentSlide` and
`slidesRemaining`, and `slidesRemaining = slideCount - currentSlide` exactly,
also when `currentSlide` is the default 1. -/
theorem slidesRemaining_exact (host : Host)
    (h : (GetPowerPointStatus host).isAvailable = some true) :
    ∃ c s : Int,
      (GetPowerPointStatus host).slideCount = some c ∧
      (GetPowerPointStatus host).currentSlide = some s ∧
      (GetPowerPointStatus host).slidesRemaining = some (c - s) := by
  obtain ⟨pptApp, count, activePres, slideCount, hApp, hCount, hne, hPres, hSlides⟩ :=
    available_inv host h
  rw [status_of_available host pptApp count activePres slideCount hApp hCount hne hPres hSlides]
  exact ⟨_, _, rfl, rfl, by rw [longSub_count_slide]⟩

/-- The hypothesis of C3 holds at `hostEditing` (slide 3 of 10 selected). -/
theorem slidesRemaining_exact_witness :
    (GetPowerPointStatus hostEditing).isAvailable = some true ∧
      ∃ c s : Int,
        (GetPowerPointStatus hostEditing).slideCount = some c ∧
        (GetPowerPointStatus hostEditing).currentSlide = some s ∧
        (GetPowerPointStatus hostEditing).slidesRemaining = some (c - s) :=
  ⟨by decide, slidesRemaining_exact hostEditing (by decide)⟩

/-- C6: for every host state that `GetPowerPointStatus` reports as available
and in which a slideshow window exists whose view shows a slide of index `k`,
the record has `isInSlideShow = true` and `currentSlide = k`, whatever the
selection of the editing window is. -/
theorem slideShow_slide_reported (host : Host) (pptApp : Application)
    (slideShowWindows : Coll SlideShowWindow) (count : LongNat)
    (slideShowWindow : SlideShowWindow) (view : SlideShowView) (slide : Slide) (k : LongNat)
    (hAvail : (GetPowerPointStatus host).isAvailable = some true)
    (hApp : host.CreateInstance = .ok (some pptApp))
    (hWindows : pptApp.SlideShowWindows = .ok (some slideShowWindows))
    (hCount : slideShowWindows.Count = .ok count)
    (hPos : count > 0)
    (hItem : slideShowWindows.Item 1 = .ok (some slideShowWindow))
    (hView : slideShowWindow.View = .ok (some view))
    (hSlide : view.Slide = .ok (some slide))
    (hIndex : slide.SlideIndex = .ok k) :
    (GetPowerPointStatus host).isInSlideShow = some true ∧
      (GetPowerPointStatus host).currentSlide = some (k.val : Int) := by
  obtain ⟨pptApp2, n, activePres, slideCount, hApp2, hN, hne, hPres, hSlides⟩ :=
    available_inv host hAvail
  have hEq : pptApp2 = pptApp := by
    rw [hApp] at hApp2
    injection hApp2 with h1
    injection h1 with h2
    exact h2.symm
  subst hEq
  rw [status_of_available host pptApp2 n activePres slideCount hApp hN hne hPres hSlides]
  have hr : resolveCurrentSlide pptApp2 activePres = ((k.val : Int), true) := by
    simp [resolveCurrentSlide, currentSlideBody, hWindows, hCount, hPos, hItem, hView, hSlide,
      hIndex, deref, bind, Except.bind, pure, Except.pure]
  simp [hr]

/-- The hypotheses of C6 hold at `hostSlideShow`, with `k = 2`. -/
theorem slideShow_slide_reported_witness :
    (GetPowerPointStatus hostSlideShow).isInSlideShow = some true ∧
      (GetPowerPointStatus hostSlideShow).currentSlide = some 2 :=
  slideShow_slide_reported hostSlideShow _ _ 1 _ _ _ 2 (by decide) rfl rfl rfl (by decide)
    rfl rfl rfl rfl

/-! ## Rounding to `double` -/

/-- The model of rounding gives the binary64 values of 0.1, 0.3 and 1/3, keeps
what is representable, and is symmetric. -/
theorem roundDouble_samples :
    roundDouble (1 / 10) = 3602879701896397 / 36028797018963968 ∧
      roundDouble (3 / 10) = 5404319552844595 / 18014398509481984 ∧
      roundDouble (1 / 3) = 6004799503160661 / 18014398509481984 ∧
      roundDouble (-1 / 3) = -(6004799503160661 / 18014398509481984) ∧
      roundDouble 120 = 120 ∧ roundDouble (3 / 2) = 3 / 2 ∧
      roundDouble 4294967295 = 4294967295 := by
  decide!

theorem pow2_eq_zpow (e : Int) : pow2 e = (2 : ℚ) ^ e := by
  unfold pow2
  split
  · next h =>
    obtain ⟨n, rfl⟩ := Int.eq_ofNat_of_zero_le h
    simp
  · next h =>
    obtain ⟨n, hn⟩ : ∃ n : Nat, e = -(n : Int) := ⟨(-e).toNat, by omega⟩
    subst hn
    simp

theorem pow2_pos (e : Int) : 0 < pow2 e := by
  rw [pow2_eq_zpow]
  positivity

theorem log2Fuel_spec : ∀ (fuel n : Nat), 1 ≤ n → n ≤ fuel →
    2 ^ log2Fuel fuel n ≤ n ∧ n < 2 ^ (log2Fuel fuel n + 1) := by
  intro fuel
  induction fuel with
  | zero => intro n h1 h2; omega
  | succ fuel ih =>
    intro n h1 h2
    unfold log2Fuel
    by_cases h : n < 2
    · simp only [h, if_true]
      constructor <;> simp <;> omega
    · simp only [h, if_false]
      obtain ⟨ih1, ih2⟩ := ih (n / 2) (by omega) (by omega)
      have e1 : 2 ^ (log2Fuel fuel (n / 2) + 1) = 2 * 2 ^ log2Fuel fuel (n / 2) := by ring
      have e2 : 2 ^ (log2Fuel fuel (n / 2) + 1 + 1) = 4 * 2 ^ log2Fuel fuel (n / 2) := by ring
      rw [e1] at ih2
      rw [e1, e2]
      generalize 2 ^ log2Fuel fuel (n / 2) = a at ih1 ih2 ⊢
      constructor <;> omega

/-- The result of `roundToGrid` is a multiple of `2 ^ e` at distance at most
half the spacing from `q`. -/
theorem roundToGrid_near (e : Int) (q : ℚ) :
    (∃ n : Int, roundToGrid e q = n * pow2 e) ∧ |roundToGrid e q - q| ≤ pow2 e / 2 := by
  have hp := pow2_pos e
  have hfl := Int.floor_le (q / pow2 e)
  have hlt := Int.lt_floor_add_one (q / pow2 e)
  have hq : q = (q / pow2 e) * pow2 e := by field_simp
  refine ⟨⟨_, rfl⟩, ?_⟩
  have key : ∀ n : Int, |(n : ℚ) - q / pow2 e| ≤ 1 / 2 → |(n : ℚ) * pow2 e - q| ≤ pow2 e / 2 := by
    intro n hn
    have : (n : ℚ) * pow2 e - q = ((n : ℚ) - q / pow2 e) * pow2 e := by field_simp
    rw [this, abs_mul, abs_of_pos hp]
    nlinarith
  unfold roundToGrid
  simp only []
  apply key
  split_ifs with h1 h2 h3
  · rw [abs_le]; constructor <;> linarith
  · rw [abs_le]; constructor <;> push_cast <;> linarith
  · rw [abs_le]; constructor <;> linarith
  · rw [abs_le]; constructor <;> push_cast <;> linarith

/-- The binade of `q ≠ 0` is the exponent of the power of two at or below `|q|`. -/
theorem binade_spec (q : ℚ) (hq : q ≠ 0) :
    pow2 (binade q) ≤ |q| ∧ |q| < pow2 (binade q + 1) := by
  have hnum : q.num.natAbs ≠ 0 := by
    simpa [Int.natAbs_eq_zero] using hq
  have hden : q.den ≠ 0 := q.den_nz
  obtain ⟨a1, a2⟩ := log2Fuel_spec q.num.natAbs q.num.natAbs (by omega) (le_refl _)
  obtain ⟨b1, b2⟩ := log2Fuel_spec q.den q.den (by omega) (le_refl _)
  have habs : |q| = (q.num.natAbs : ℚ) / (q.den : ℚ) := by
    conv_lhs => rw [← Rat.num_div_den q]
    rw [abs_div, Nat.cast_natAbs, Int.cast_abs, Nat.abs_cast]
  have hd : (0 : ℚ) < (q.den : ℚ) := by exact_mod_cast Nat.pos_of_ne_zero hden
  have A1 : ((2 : ℚ) ^ log2Fuel q.num.natAbs q.num.natAbs) ≤ (q.num.natAbs : ℚ) := by
    exact_mod_cast a1
  have A2 : (q.num.natAbs : ℚ) < (2 : ℚ) ^ (log2Fuel q.num.natAbs q.num.natAbs + 1) := by
    exact_mod_cast a2
  have B1 : ((2 : ℚ) ^ log2Fuel q.den q.den) ≤ (q.den : ℚ) := by exact_mod_cast b1
  have B2 : (q.den : ℚ) < (2 : ℚ) ^ (log2Fuel q.den q.den + 1) := by exact_mod_cast b2
  unfold binade
  simp only []
  generalize log2Fuel q.num.natAbs q.num.natAbs = a at *
  generalize log2Fuel q.den q.den = b at *
  have P : ∀ k : Int, pow2 (k + 1) = 2 * pow2 k := by
    intro k
    rw [pow2_eq_zpow, pow2_eq_zpow, zpow_add_one₀ (by norm_num : (2 : ℚ) ≠ 0)]
    ring
  have E : pow2 ((a : Int) - (b : Int)) = (2 : ℚ) ^ a / (2 : ℚ) ^ b := by
    rw [pow2_eq_zpow, zpow_sub₀ (by norm_num : (2 : ℚ) ≠ 0), zpow_natCast, zpow_natCast]
  have hb0 : (0 : ℚ) < (2 : ℚ) ^ b := by positivity
  split_ifs with h
  · refine ⟨?_, by simpa using h⟩
    have h2 : pow2 ((a : Int) - (b : Int)) = 2 * pow2 ((a : Int) - (b : Int) - 1) := by
      have := P ((a : Int) - (b : Int) - 1)
      simpa using this
    rw [habs]
    have h3 : pow2 ((a : Int) - (b : Int) - 1) = (2 : ℚ) ^ a / (2 : ℚ) ^ (b + 1) := by
      have : (2 : ℚ) ^ (b + 1) = 2 * (2 : ℚ) ^ b := by ring
      rw [this]
      rw [E] at h2
      field_simp at h2 ⊢
      linarith
    rw [h3, div_le_div_iff₀ (by positivity) hd]
    have : (2 : ℚ) ^ a * (q.den : ℚ) ≤ (q.num.natAbs : ℚ) * (2 : ℚ) ^ (b + 1) := by
      have ha0 : (0 : ℚ) ≤ (2 : ℚ) ^ a := by positivity
      nlinarith
    exact this
  · refine ⟨not_lt.mp h, ?_⟩
    rw [P, E, habs, div_lt_iff₀ hd]
    have : (2 : ℚ) ^ (a + 1) = 2 * (2 : ℚ) ^ a := by ring
    rw [this] at A2
    have h5 : 2 * ((2 : ℚ) ^ a / (2 : ℚ) ^ b) * (q.den : ℚ) =
        2 * (2 : ℚ) ^ a * ((q.den : ℚ) / (2 : ℚ) ^ b) := by
      field_simp
    rw [h5]
    have h6 : (1 : ℚ) ≤ (q.den : ℚ) / (2 : ℚ) ^ b := by
      rw [le_div_iff₀ hb0]
      linarith
    have ha0 : (0 : ℚ) < (2 : ℚ) ^ a := by positivity
    nlinarith

/-- For `q ≠ 0` the rounded value is a multiple of the spacing of the binade of
`q` (53 significant bits), at distance at most half that spacing from `q`. -/
theorem roundDouble_near (q : ℚ) (hq : q ≠ 0) :
    (∃ n : Int, roundDouble q = n * pow2 (max (binade q) (-1022) - 52)) ∧
      |roundDouble q - q| ≤ pow2 (max (binade q) (-1022) - 52) / 2 := by
  unfold roundDouble
  rw [if_neg hq]
  exact roundToGrid_near _ q

/-- An integer below `2 ^ 53` in absolute value, such as a `long`, is a
`double`: its conversion is exact. -/
theorem roundDouble_int (x : Int) (hx : |x| < 9007199254740992) :
    roundDouble (x : ℚ) = (x : ℚ) := by
  by_cases h0 : (x : ℚ) = 0
  · simp [roundDouble, h0]
  obtain ⟨hb1, -⟩ := binade_spec (x : ℚ) h0
  have hxq : |(x : ℚ)| < (2 : ℚ) ^ (53 : Int) := by
    have : ((|x| : Int) : ℚ) < ((9007199254740992 : Int) : ℚ) := by exact_mod_cast hx
    rw [Int.cast_abs] at this
    norm_num at this ⊢
    exact this
  have hb : binade (x : ℚ) < 53 := by
    by_contra hcon
    have h53 : (53 : Int) ≤ binade (x : ℚ) := not_lt.mp hcon
    have : (2 : ℚ) ^ (53 : Int) ≤ pow2 (binade (x : ℚ)) := by
      rw [pow2_eq_zpow]
      exact zpow_le_zpow_right₀ (by norm_num) h53
    linarith
  unfold roundDouble
  rw [if_neg h0]
  generalize he : max (binade (x : ℚ)) (-1022) - 52 = e
  have hneg : e ≤ 0 := by
    rw [← he]
    have : max (binade (x : ℚ)) (-1022) ≤ 52 := max_le (by omega) (by norm_num)
    omega
  obtain ⟨k, hk⟩ : ∃ k : Nat, e = -(k : Int) := ⟨(-e).toNat, by omega⟩
  have hp : pow2 e = 1 / (2 : ℚ) ^ k := by
    rw [pow2_eq_zpow, hk, zpow_neg, zpow_natCast, one_div]
  have hs : (x : ℚ) / pow2 e = ((x * 2 ^ k : Int) : ℚ) := by
    rw [hp]
    push_cast
    field_simp
  unfold roundToGrid
  simp only [hs, Int.floor_intCast, sub_self]
  norm_num
  rw [hp]
  field_simp

/-- On the 0-100 scale the `double` quotient by 100 stays within the unit
interval. -/
theorem fdiv_percent_bounds (v : Int) (h : 0 ≤ v ∧ v ≤ 100) :
    0 ≤ fdiv (v : ℚ) 100 ∧ fdiv (v : ℚ) 100 ≤ 1 := by
  have key : ∀ k : Fin 101,
      0 ≤ fdiv (((k.val : Nat) : Int) : ℚ) 100 ∧ fdiv (((k.val : Nat) : Int) : ℚ) 100 ≤ 1 := by
    decide!
  obtain ⟨n, rfl⟩ := Int.eq_ofNat_of_zero_le h.1
  have hn : n < 101 := by omega
  exact key ⟨n, hn⟩

/-! ## GetVideoInfoFromPowerPoint: the scan -/

theorem item_of_append (shapes : Coll Shape) (front rest : List (Read (Ptr Shape)))
    (entry : Read (Ptr Shape)) (h : shapes.items = front ++ entry :: rest) :
    shapes.Item ((front.length : Int) + 1) = entry := by
  have h1 : ¬ ((front.length : Int) + 1 < 1) := by omega
  have h2 : ((front.length : Int) + 1).toNat - 1 = front.length := by omega
  unfold Coll.Item
  rw [if_neg h1, h2, h, List.getElem?_append_right (le_refl _)]
  simp

/-- A media format that is read to the end raises nothing. -/
theorem readMediaFormat_completes (mediaFormat : MediaFormat) (info : VideoInfo)
    (h : mediaFormat.readable) : (readMediaFormat mediaFormat info).2 = none := by
  obtain ⟨⟨a1, h1⟩, ⟨a2, h2⟩, ⟨a3, h3⟩, ⟨a4, h4⟩, ⟨a5, h5⟩, ⟨a6, h6⟩⟩ := h
  unfold readMediaFormat
  rw [h1, h2, h3, h4, h5, h6]
  cases a6 with
  | none => rfl
  | some nm => simp only []; split <;> rfl

/-- A media format on which some read raises ends `readMediaFormat` with an
exception. -/
theorem readMediaFormat_raises (mediaFormat : MediaFormat) (info : VideoInfo)
    (h : ¬ mediaFormat.readable) : ∃ e, (readMediaFormat mediaFormat info).2 = some e := by
  cases h1 : mediaFormat.IsPlaying with
  | error e => exact ⟨e, by simp only [readMediaFormat, h1]⟩
  | ok a1 =>
    cases h2 : mediaFormat.Length with
    | error e => exact ⟨e, by simp only [readMediaFormat, h1, h2]⟩
    | ok a2 =>
      cases h3 : mediaFormat.CurrentPosition with
      | error e => exact ⟨e, by simp only [readMediaFormat, h1, h2, h3]⟩
      | ok a3 =>
        cases h4 : mediaFormat.Volume with
        | error e => exact ⟨e, by simp only [readMediaFormat, h1, h2, h3, h4]⟩
        | ok a4 =>
          cases h5 : mediaFormat.Muted with
          | error e => exact ⟨e, by simp only [readMediaFormat, h1, h2, h3, h4, h5]⟩
          | ok a5 =>
            cases h6 : mediaFormat.Name with
            | error e => exact ⟨e, by simp only [readMediaFormat, h1, h2, h3, h4, h5, h6]⟩
            | ok a6 => exact absurd ⟨⟨a1, h1⟩, ⟨a2, h2⟩, ⟨a3, h3⟩, ⟨a4, h4⟩, ⟨a5, h5⟩, ⟨a6, h6⟩⟩ h

/-- After an entry that is passed over the loop goes on. -/
theorem processShape_passedOver (entry : Read (Ptr Shape)) (h : passedOver entry) :
    ∃ p, entry = .ok p ∧ ∀ info, ∃ info2, processShape p info = (info2, .next) := by
  match entry, h with
  | .ok none, _ => exact ⟨none, rfl, fun info => ⟨info, rfl⟩⟩
  | .ok (some shape), h =>
    refine ⟨some shape, rfl, fun info => ?_⟩
    simp only [passedOver] at h
    cases hT : shape.Type_ with
    | error e => exact ⟨info, by simp [processShape, hT]⟩
    | ok t =>
      by_cases h16 : t = 16
      · subst h16
        rcases h with h | ⟨e, hF⟩ | ⟨mediaFormat, hF, hnr⟩
        · exact absurd hT h
        · exact ⟨{ info with hasVideo := true }, by simp [processShape, hT, hF]⟩
        · obtain ⟨e, he⟩ := readMediaFormat_raises mediaFormat { info with hasVideo := true } hnr
          rcases hrm : readMediaFormat mediaFormat { info with hasVideo := true } with ⟨i2, ex⟩
          rw [hrm] at he
          simp only at he
          subst he
          exact ⟨i2, by simp [processShape, hT, hF, hrm]⟩
      · exact ⟨info, by simp [processShape, hT, h16]⟩

/-- The loop walks over a run of entries that are passed over and arrives at
the index after them. -/
theorem scanFrom_pass (shapes : Coll Shape) (before : List (Read (Ptr Shape))) :
    ∀ (front rest : List (Read (Ptr Shape))) (n : Nat) (info : VideoInfo),
      shapes.items = front ++ (before ++ rest) → (∀ entry ∈ before, passedOver entry) →
      ∃ info2, scanFrom shapes ((front.length : Int) + 1) (before.length + n) info =
        scanFrom shapes ((front.length : Int) + before.length + 1) n info2 := by
  induction before with
  | nil => intro front rest n info _ _; exact ⟨info, by simp⟩
  | cons entry es ih =>
    intro front rest n info hItems hBefore
    obtain ⟨p, hp, hproc⟩ := processShape_passedOver entry (hBefore entry (by simp))
    obtain ⟨info1, hproc1⟩ := hproc info
    have hItem : shapes.Item ((front.length : Int) + 1) = entry :=
      item_of_append shapes front (es ++ rest) entry (by simpa using hItems)
    have hn : (entry :: es).length + n = (es.length + n) + 1 := by simp; omega
    obtain ⟨info2, h2⟩ := ih (front ++ [entry]) rest n info1 (by simpa using hItems)
      (fun e he => hBefore e (by simp [he]))
    simp only [List.length_append, List.length_singleton, Nat.cast_add, Nat.cast_one] at h2
    refine ⟨info2, ?_⟩
    rw [hn, scanFrom, hItem, hp]
    simp only [hproc1]
    rw [h2]
    congr 1
    simp only [List.length_cons, Nat.cast_add, Nat.cast_one]
    ring

theorem readLinkFormat_eq (shape : Shape) (info : VideoInfo) :
    readLinkFormat shape info =
      { info with sourceUrl := (readLinkFormat shape info).sourceUrl } := by
  unfold readLinkFormat
  split
  · split
    · split <;> rfl
    · rfl
  · rfl

/-- The snapshot when the scan reaches a media shape whose media format is
read to the end: the loop breaks there. -/
theorem video_of_reached_media (host : Host) (pptApp : Application)
    (presentations : Presentations) (count : LongNat)
    (activePres : Presentation) (slide : Slide) (shapes : Coll Shape) (shapeCount : LongNat)
    (before after : List (Read (Ptr Shape))) (shape : Shape) (mediaFormat : MediaFormat)
    (hApp : host.CreateInstance = .ok (some pptApp))
    (hPresentations : pptApp.Presentations = .ok (some presentations))
    (hCount : presentations.Count = .ok count)
    (hne : count ≠ 0)
    (hPres : pptApp.ActivePresentation = .ok (some activePres))
    (hSlide : videoSlide pptApp activePres = some slide)
    (hShapes : slide.Shapes = .ok (some shapes))
    (hShapeCount : shapes.Count = .ok shapeCount)
    (hItems : shapes.items = before ++ .ok (some shape) :: after)
    (hLen : before.length < shapeCount.val)
    (hBefore : ∀ entry ∈ before, passedOver entry)
    (hType : shape.Type_ = .ok 16)
    (hFormat : shape.MediaFormat = .ok (some mediaFormat))
    (hRead : mediaFormat.readable) :
    ∃ info : VideoInfo, GetVideoInfoFromPowerPoint host =
      readLinkFormat shape (readMediaFormat mediaFormat { info with hasVideo := true }).1 := by
  obtain ⟨m, hm⟩ : ∃ m, shapeCount.val = before.length + (m + 1) :=
    ⟨shapeCount.val - before.length - 1, by omega⟩
  obtain ⟨info, hpass⟩ := scanFrom_pass shapes before [] (.ok (some shape) :: after) (m + 1)
    initialInfo (by simpa using hItems) hBefore
  simp only [List.length_nil, Nat.cast_zero, zero_add] at hpass
  have hItem := item_of_append shapes before after (.ok (some shape)) hItems
  have hproc : processShape (some shape) info =
      (readLinkFormat shape (readMediaFormat mediaFormat { info with hasVideo := true }).1,
        .stop) := by
    have hnone := readMediaFormat_completes mediaFormat { info with hasVideo := true } hRead
    rcases hrm : readMediaFormat mediaFormat { info with hasVideo := true } with ⟨i2, ex⟩
    rw [hrm] at hnone
    simp only at hnone
    subst hnone
    simp [processShape, hType, hFormat, hrm]
  have hscan : scanFrom shapes 1 shapeCount.val initialInfo =
      (readLinkFormat shape (readMediaFormat mediaFormat { info with hasVideo := true }).1,
        none) := by
    rw [hm, hpass, scanFrom, hItem]
    simp only [hproc]
  have hc : (pptApp.Presentations >>= deref >>= (·.Count)) = .ok count := by
    simp [hPresentations, hCount, deref, bind, Except.bind]
  have hs : (slide.Shapes >>= deref) = .ok shapes := by
    simp [hShapes, deref, bind, Except.bind]
  exact ⟨info, by
    simp [GetVideoInfoFromPowerPoint, videoBody, hApp, hc, hne, hPres, hSlide, hs,
      hShapeCount, hscan]⟩

/-! ## GetVideoInfoFromPowerPoint: remaining time -/

/-- C4, as stated, fails.  In `hostTenths` the media format is read to the end
with `L = 300` and `P = 100`: the snapshot's `remainingTime` is the `double`
0.19999999999999998, not `max(0, 300/1000 - 100/1000) = 1/5`.  In
`hostOverwritten` the first media shape is read with `L = 10000` and `P = 2000`
and then raises on `Volume`, the scan goes on, and the next media shape sets
`duration` before raising: the snapshot has `duration = 1`, `currentTime = 2`,
`remainingTime = 8`. -/
theorem remainingTime_not_exact :
    (GetVideoInfoFromPowerPoint hostTenths).remainingTime =
        7205759403792793 / 36028797018963968 ∧
      (GetVideoInfoFromPowerPoint hostTenths).remainingTime ≠
        max 0 ((300 : ℚ) / 1000 - (100 : ℚ) / 1000) ∧
      (GetVideoInfoFromPowerPoint hostOverwritten).duration = 1 ∧
      (GetVideoInfoFromPowerPoint hostOverwritten).currentTime = 2 ∧
      (GetVideoInfoFromPowerPoint hostOverwritten).remainingTime = 8 := by
  decide!

/-- C4, amended: for every host state in which the scan of
`GetVideoInfoFromPowerPoint` reaches a media shape (every entry before it is
fetched and passed over) whose media format is read to the end, with length `L`
ms and current position `P` ms, any integers, the snapshot has `hasVideo`,
`duration = L / 1000.0` and `currentTime = P / 1000.0` as `double` quotients,
and `remainingTime = max(0, duration - currentTime)` with the `double`
difference; `remainingTime` is not negative. -/
theorem remainingTime_of_media (host : Host) (pptApp : Application)
    (presentations : Presentations) (count : LongNat)
    (activePres : Presentation) (slide : Slide) (shapes : Coll Shape) (shapeCount : LongNat)
    (before after : List (Read (Ptr Shape))) (shape : Shape) (mediaFormat : MediaFormat)
    (isPlaying : Bool) (L P volumePercent : Int) (muted : Bool) (mediaName : Option String)
    (hApp : host.CreateInstance = .ok (some pptApp))
    (hPresentations : pptApp.Presentations = .ok (some presentations))
    (hCount : presentations.Count = .ok count)
    (hne : count ≠ 0)
    (hPres : pptApp.ActivePresentation = .ok (some activePres))
    (hSlide : videoSlide pptApp activePres = some slide)
    (hShapes : slide.Shapes = .ok (some shapes))
    (hShapeCount : shapes.Count = .ok shapeCount)
    (hItems : shapes.items = before ++ .ok (some shape) :: after)
    (hLen : before.length < shapeCount.val)
    (hBefore : ∀ entry ∈ before, passedOver entry)
    (hType : shape.Type_ = .ok 16)
    (hFormat : shape.MediaFormat = .ok (some mediaFormat))
    (hPlaying : mediaFormat.IsPlaying = .ok isPlaying)
    (hLength : mediaFormat.Length = .ok L)
    (hPosition : mediaFormat.CurrentPosition = .ok P)
    (hVolume : mediaFormat.Volume = .ok volumePercent)
    (hMuted : mediaFormat.Muted = .ok muted)
    (hName : mediaFormat.Name = .ok mediaName) :
    (GetVideoInfoFromPowerPoint host).hasVideo = true ∧
      (GetVideoInfoFromPowerPoint host).duration = fdiv (L : ℚ) 1000 ∧
      (GetVideoInfoFromPowerPoint host).currentTime = fdiv (P : ℚ) 1000 ∧
      (GetVideoInfoFromPowerPoint host).remainingTime =
        max 0 (fsub (GetVideoInfoFromPowerPoint host).duration
          (GetVideoInfoFromPowerPoint host).currentTime) ∧
      0 ≤ (GetVideoInfoFromPowerPoint host).remainingTime := by
  have hRead : mediaFormat.readable :=
    ⟨⟨_, hPlaying⟩, ⟨_, hLength⟩, ⟨_, hPosition⟩, ⟨_, hVolume⟩, ⟨_, hMuted⟩, ⟨_, hName⟩⟩
  obtain ⟨info, hv⟩ := video_of_reached_media host pptApp presentations count activePres slide
    shapes shapeCount before after shape mediaFormat hApp hPresentations hCount hne hPres hSlide
    hShapes hShapeCount hItems hLen hBefore hType hFormat hRead
  rw [hv, readLinkFormat_eq]
  simp only []
  unfold readMediaFormat
  rw [hPlaying, hLength, hPosition, hVolume, hMuted, hName]
  cases mediaName with
  | none =>
    simp only []
    by_cases hx : fsub (fdiv (L : ℚ) 1000) (fdiv (P : ℚ) 1000) < 0
    · simp [hx, max_eq_left (le_of_lt hx)]
    · simp [hx, max_eq_right (not_lt.mp hx), not_lt.mp hx]
  | some nm =>
    simp only []
    by_cases hx : fsub (fdiv (L : ℚ) 1000) (fdiv (P : ℚ) 1000) < 0 <;>
      by_cases hl : nm.length > 0
    · simp [hx, hl, max_eq_left (le_of_lt hx)]
    · simp [hx, hl, max_eq_left (le_of_lt hx)]
    · simp [hx, hl, max_eq_right (not_lt.mp hx), not_lt.mp hx]
    · simp [hx, hl, max_eq_right (not_lt.mp hx), not_lt.mp hx]

/-- The slideshow scenario, evaluated. -/
theorem slideShow_scenario :
    GetVideoInfoFromPowerPoint hostSlideShow =
      ⟨true, true, 120, 30, 90, 1 / 2, false, "clip.mp4", ""⟩ := by
  decide!

/-- The hypotheses of the amended C4 hold at `hostSlideShow`, with `L = 120000`
and `P = 30000`. -/
theorem remainingTime_of_media_witness :
    (GetVideoInfoFromPowerPoint hostSlideShow).hasVideo = true ∧
      (GetVideoInfoFromPowerPoint hostSlideShow).duration = fdiv ((120000 : Int) : ℚ) 1000 ∧
      (GetVideoInfoFromPowerPoint hostSlideShow).currentTime = fdiv ((30000 : Int) : ℚ) 1000 ∧
      (GetVideoInfoFromPowerPoint hostSlideShow).remainingTime =
        max 0 (fsub (GetVideoInfoFromPowerPoint hostSlideShow).duration
          (GetVideoInfoFromPowerPoint hostSlideShow).currentTime) ∧
      0 ≤ (GetVideoInfoFromPowerPoint hostSlideShow).remainingTime :=
  remainingTime_of_media hostSlideShow _ _ 1 _ _ _ 2 [.ok (some textBox)] [] _ _
    true 120000 30000 50 false (some "clip.mp4")
    rfl rfl rfl (by decide) rfl rfl rfl rfl rfl (by decide)
    (by intro entry he; simp at he; subst he; simp [passedOver, textBox])
    rfl rfl rfl rfl rfl rfl rfl rfl

/-! ## GetVideoInfoFromPowerPoint: volume -/

theorem item_mem (shapes : Coll Shape) (i : Int) (p : Ptr Shape)
    (h : shapes.Item i = .ok p) : (.ok p : Read (Ptr Shape)) ∈ shapes.items := by
  unfold Coll.Item at h
  split at h
  · cases h
  · split at h
    · next r hr =>
      subst h
      exact List.getElem?_mem hr
    · cases h

/-- A property of `volume` that holds before `readMediaFormat` and of the
quotient of every volume the media format reports, holds after it. -/
theorem readMediaFormat_volume (Q : ℚ → Prop) (mediaFormat : MediaFormat) (info : VideoInfo)
    (hv : ∀ v, mediaFormat.Volume = .ok v → Q (fdiv (v : ℚ) 100))
    (h : Q info.volume) : Q (readMediaFormat mediaFormat info).1.volume := by
  unfold readMediaFormat
  cases mediaFormat.IsPlaying with
  | error e => exact h
  | ok isPlaying =>
    cases mediaFormat.Length with
    | error e => exact h
    | ok durationMs =>
      cases mediaFormat.CurrentPosition with
      | error e => exact h
      | ok currentTimeMs =>
        cases hV : mediaFormat.Volume with
        | error e => simp only []; split <;> exact h
        | ok volumePercent =>
          have hb := hv volumePercent hV
          cases mediaFormat.Muted with
          | error e => exact hb
          | ok muted =>
            cases mediaFormat.Name with
            | error e => exact hb
            | ok nm =>
              cases nm with
              | none => exact hb
              | some mediaName => simp only []; split <;> exact hb

theorem readLinkFormat_volume (shape : Shape) (info : VideoInfo) :
    (readLinkFormat shape info).volume = info.volume := by
  rw [readLinkFormat_eq]

theorem processShape_volume (Q : ℚ → Prop) (p : Ptr Shape) (info : VideoInfo)
    (hv : ∀ (shape : Shape) (mediaFormat : MediaFormat) (v : Int), p = some shape →
      shape.MediaFormat = .ok (some mediaFormat) → mediaFormat.Volume = .ok v →
      Q (fdiv (v : ℚ) 100))
    (h : Q info.volume) : Q (processShape p info).1.volume := by
  cases p with
  | none => exact h
  | some sh =>
    cases hT : sh.Type_ with
    | error e => simp only [processShape, hT]; exact h
    | ok shapeType =>
      by_cases h16 : shapeType = 16
      · cases hF : sh.MediaFormat with
        | error e => simp only [processShape, hT, h16, if_true, hF]; exact h
        | ok q =>
          cases q with
          | none =>
            simp only [processShape, hT, h16, if_true, hF, readLinkFormat_volume]
            exact h
          | some mediaFormat =>
            have hm := readMediaFormat_volume Q mediaFormat { info with hasVideo := true }
              (fun v hV => hv sh mediaFormat v rfl hF hV) h
            rcases hrm : readMediaFormat mediaFormat { info with hasVideo := true } with ⟨i2, ex⟩
            rw [hrm] at hm
            cases ex with
            | none =>
              simp only [processShape, hT, h16, if_true, hF, hrm, readLinkFormat_volume]
              exact hm
            | some e =>
              simp only [processShape, hT, h16, if_true, hF, hrm]
              exact hm
      · simp only [processShape, hT, h16, if_false]
        exact h

theorem scanFrom_volume (Q : ℚ → Prop) (shapes : Coll Shape)
    (hv : ∀ v, reportsVolume shapes v → Q (fdiv (v : ℚ) 100)) :
    ∀ (n : Nat) (i : Int) (info : VideoInfo), Q info.volume →
      Q (scanFrom shapes i n info).1.volume := by
  intro n
  induction n with
  | zero => intro i info h; exact h
  | succ n ih =>
    intro i info h
    cases hItem : shapes.Item i with
    | error e => simp only [scanFrom, hItem]; exact h
    | ok p =>
      have hp := processShape_volume Q p info
        (fun shape mediaFormat v hs hF hV =>
          hv v ⟨shape, mediaFormat, by rw [← hs]; exact item_mem shapes i p hItem, hF, hV⟩) h
      rcases hps : processShape p info with ⟨i2, flow⟩
      rw [hps] at hp
      cases flow with
      | stop => simp only [scanFrom, hItem, hps]; exact hp
      | next => simp only [scanFrom, hItem, hps]; exact ih (i + 1) i2 hp

/-- A property of `volume` that holds of the initial 0 and of the quotient of
every volume reported on the scanned slide, holds of the snapshot. -/
theorem video_volume (Q : ℚ → Prop) (host : Host) (h0 : Q 0)
    (hv : ∀ shapes v, scannedShapes host shapes → reportsVolume shapes v →
      Q (fdiv (v : ℚ) 100)) :
    Q (GetVideoInfoFromPowerPoint host).volume := by
  have h0 : Q initialInfo.volume := h0
  cases hApp : host.CreateInstance with
  | failed => simp only [GetVideoInfoFromPowerPoint, hApp]; exact h0
  | ok p =>
    cases p with
    | none => simp only [GetVideoInfoFromPowerPoint, hApp]; exact h0
    | some pptApp =>
      cases hC : (pptApp.Presentations >>= deref >>= (·.Count)) with
      | error e => simp only [GetVideoInfoFromPowerPoint, hApp, videoBody, hC]; exact h0
      | ok count =>
        by_cases hc : count = 0
        · simp only [GetVideoInfoFromPowerPoint, hApp, videoBody, hC, hc, if_true]; exact h0
        · cases hPres : pptApp.ActivePresentation with
          | error e =>
            simp only [GetVideoInfoFromPowerPoint, hApp, videoBody, hC, hc, if_false, hPres]
            exact h0
          | ok q =>
            cases q with
            | none =>
              simp only [GetVideoInfoFromPowerPoint, hApp, videoBody, hC, hc, if_false, hPres]
              exact h0
            | some activePres =>
              cases hSlide : videoSlide pptApp activePres with
              | none =>
                simp only [GetVideoInfoFromPowerPoint, hApp, videoBody, hC, hc, if_false, hPres,
                  hSlide]
                exact h0
              | some slide =>
                cases hS : (slide.Shapes >>= deref) with
                | error e =>
                  simp only [GetVideoInfoFromPowerPoint, hApp, videoBody, hC, hc, if_false, hPres,
                    hSlide, hS]
                  exact h0
                | ok shapes =>
                  have hS2 : slide.Shapes = .ok (some shapes) := by
                    cases hx : slide.Shapes with
                    | error e => rw [hx] at hS; cases hS
                    | ok r =>
                      cases r with
                      | none => rw [hx] at hS; cases hS
                      | some sh => rw [hx] at hS; cases hS; rfl
                  cases hSC : shapes.Count with
                  | error e =>
                    simp only [GetVideoInfoFromPowerPoint, hApp, videoBody, hC, hc, if_false,
                      hPres, hSlide, hS, hSC]
                    exact h0
                  | ok shapeCount =>
                    simp only [GetVideoInfoFromPowerPoint, hApp, videoBody, hC, hc, if_false,
                      hPres, hSlide, hS, hSC]
                    exact scanFrom_volume Q shapes
                      (fun v hr => hv shapes v ⟨pptApp, activePres, slide, hApp, hPres, hSlide, hS2⟩
                        hr) _ _ _ h0

/-- C5, as stated, fails: a media shape whose host-reported volume is 150 gives
a snapshot with `volume = 3/2`, above 1. -/
theorem loud_volume_above_one :
    (GetVideoInfoFromPowerPoint hostLoud).volume = 3 / 2 ∧
      ¬ (GetVideoInfoFromPowerPoint hostLoud).volume ≤ 1 := by
  decide!

/-- C5, amended: for every host state in which every volume that the host
reports for a media shape on the scanned slide lies on the 0-100 scale, the
snapshot returned by `GetVideoInfoFromPowerPoint` has as `volume` the initial 0
or the `double` quotient `v / 100.0` of such a reported volume `v`, not
clamped, and `0 ≤ volume ≤ 1`. -/
theorem volume_within_unit (host : Host)
    (h : ∀ shapes, scannedShapes host shapes → volumesWithin shapes) :
    ((GetVideoInfoFromPowerPoint host).volume = 0 ∨
        ∃ shapes v, scannedShapes host shapes ∧ reportsVolume shapes v ∧
          (GetVideoInfoFromPowerPoint host).volume = fdiv (v : ℚ) 100) ∧
      0 ≤ (GetVideoInfoFromPowerPoint host).volume ∧
      (GetVideoInfoFromPowerPoint host).volume ≤ 1 :=
  video_volume
    (fun x => (x = 0 ∨ ∃ shapes v, scannedShapes host shapes ∧ reportsVolume shapes v ∧
      x = fdiv (v : ℚ) 100) ∧ 0 ≤ x ∧ x ≤ 1)
    host ⟨Or.inl rfl, le_refl 0, zero_le_one⟩
    (fun shapes v hs hr =>
      ⟨Or.inr ⟨shapes, v, hs, hr, rfl⟩, fdiv_percent_bounds v (h shapes hs v hr)⟩)

/-- The hypothesis of the amended C5 holds at `hostSlideShow`, whose only media
format reports volume 50. -/
theorem volume_within_unit_witness :
    ((GetVideoInfoFromPowerPoint hostSlideShow).volume = 0 ∨
        ∃ shapes v, scannedShapes hostSlideShow shapes ∧ reportsVolume shapes v ∧
          (GetVideoInfoFromPowerPoint hostSlideShow).volume = fdiv (v : ℚ) 100) ∧
      0 ≤ (GetVideoInfoFromPowerPoint hostSlideShow).volume ∧
      (GetVideoInfoFromPowerPoint hostSlideShow).volume ≤ 1 :=
  volume_within_unit hostSlideShow (by
    rintro shapes ⟨pptApp, activePres, slide, hApp, hPres, hSlide, hShapes⟩
    simp only [hostSlideShow, hostOf, HResult.ok.injEq, Option.some.injEq] at hApp
    subst hApp
    simp only [Except.ok.injEq, Option.some.injEq] at hPres
    subst hPres
    change some (slideOf 2 [.ok (some textBox),
      .ok (some (mediaShape (mediaFormatOf true 120000 30000 50 false "clip.mp4")))]) =
        some slide at hSlide
    simp only [Option.some.injEq] at hSlide
    subst hSlide
    simp only [slideOf, Except.ok.injEq, Option.some.injEq] at hShapes
    subst hShapes
    rintro v ⟨shape, mediaFormat, hmem, hFormat, hVolume⟩
    simp only [List.mem_cons, List.mem_singleton, List.not_mem_nil, or_false, Except.ok.injEq,
      Option.some.injEq] at hmem
    rcases hmem with hmem | hmem
    · subst hmem
      simp [textBox] at hFormat
    · subst hmem
      simp only [mediaShape, Except.ok.injEq, Option.some.injEq] at hFormat
      subst hFormat
      simp only [mediaFormatOf, Except.ok.injEq] at hVolume
      subst hVolume
      decide)

/-! ## Where the code departs from the claims -/

/-- C7: in `hostViewFails` a slideshow window exists, reading its `View`
raises, and the selection of the first editing window holds the slide of index
3.  `GetPowerPointStatus` reports `currentSlide = 1` with `isInSlideShow =
false`: its `catch (...)` skips the selection branch, which sits in the `else`
of the same `try`.  The claim says 3. -/
theorem failed_view_reports_slide_one :
    (GetPowerPointStatus hostViewFails).isAvailable = some true ∧
      (GetPowerPointStatus hostViewFails).currentSlide = some 1 ∧
      (GetPowerPointStatus hostViewFails).isInSlideShow = some false ∧
      ∃ pptApp activePres slide,
        hostViewFails.CreateInstance = .ok (some pptApp) ∧
        pptApp.ActivePresentation = .ok (some activePres) ∧
        selectionSlide activePres = some slide ∧ slide.SlideIndex = .ok 3 :=
  ⟨by decide, by decide, by decide, _, _, _, rfl, rfl, rfl, rfl⟩

/-- C10: in `hostViewFails` the record of `GetPowerPointStatus` has
`currentSlide = 1`, while its `video` object describes the media shape
"intro.mp4", which `GetVideoInfoFromPowerPoint` found on the slide of index 3:
after the failed slideshow read the one procedure falls back to the selection
and the other does not. -/
theorem video_from_other_slide :
    (GetPowerPointStatus hostViewFails).currentSlide = some 1 ∧
      (∃ video, (GetPowerPointStatus hostViewFails).video = some video ∧
        video.hasVideo = some true ∧ video.fileName = some "intro.mp4") ∧
      ∃ pptApp activePres slide,
        hostViewFails.CreateInstance = .ok (some pptApp) ∧
        pptApp.ActivePresentation = .ok (some activePres) ∧
        videoSlide pptApp activePres = some slide ∧ slide.SlideIndex = .ok 3 :=
  ⟨by decide, ⟨_, rfl, by decide!, by decide!⟩, _, _, _, rfl, rfl, rfl, rfl⟩

/-- C8: the first media shape of `hostTwoShapes second` is `stalledMedia`, whose
`Length` read raises after `hasVideo` and `isPlaying` were set; the `catch`
continues with the next shape.  With a second media shape the snapshot takes
every playback field from that second shape (its volume is the `double`
`20 / 100.0`); with a text box it keeps what
`stalledMedia` left.  So the shape after the first media shape is read and
decides the snapshot. -/
theorem later_shape_decides_snapshot :
    GetVideoInfoFromPowerPoint
        (hostTwoShapes (mediaShape (mediaFormatOf false 5000 1000 20 true "second.mp4"))) =
      ⟨true, false, 5, 1, 4, 3602879701896397 / 18014398509481984, true, "second.mp4", ""⟩ ∧
    GetVideoInfoFromPowerPoint (hostTwoShapes textBox) =
      ⟨true, true, 0, 0, 0, 0, false, "", ""⟩ := by
  decide!

/-- C9: in `hostUnfetchable` fetching the first shape raises and the second
shape is a readable media shape.  `shapes->Item(i)` is outside the per-shape
`try`, so the scan is abandoned and the snapshot has `hasVideo = false`; for
the same list without the unreadable shape it has `hasVideo = true`. -/
theorem fetch_failure_ends_scan :
    GetVideoInfoFromPowerPoint hostUnfetchable = initialInfo ∧
      (GetVideoInfoFromPowerPoint hostUnfetchable).hasVideo = false ∧
      (GetVideoInfoFromPowerPoint hostFetchable).hasVideo = true := by
  decide!

/-- A shape whose type cannot be read is skipped: the media shape after it is
reported, with the snapshot of the list without it. -/
theorem type_failure_is_skipped :
    GetVideoInfoFromPowerPoint hostUntyped = GetVideoInfoFromPowerPoint hostFetchable ∧
      (GetVideoInfoFromPowerPoint hostUntyped).hasVideo = true := by
  decide!

end PowerPointCom
